import Mathlib

/-!
Shallow embedding of the rental-session core of the mnk_backend service
(`mnk_backend/routes/mnk_session.py`), together with theorems settling the
specification claims about it.

The entity store is modelled as explicit lists of records; the helper calls
`mnkSession.get`, `mnkSession.update`, `Item.update` and the filtered queries
of the route handlers are modelled as list operations.  Wall-clock time is
passed in as an explicit `now : Nat` parameter in place of
`datetime.datetime.now`.  The authenticated `user` dependency is passed in as
the explicit id it contributes (`user.get("id")`).  The audit logger and the
HTTP layer are external collaborators and are not part of the modelled state.
-/

namespace Mnk

/-- The `RentStatus` enum from `mnk_backend.schemas.models`. -/
inductive RentStatus
  | RESERVED
  | ACTIVE
  | OVERDUE
  | RETURNED
  | CANCELED
  | DISMISSED
  deriving DecidableEq, Repr

/-- An `Item` row: identity, item-type reference and availability flag. -/
structure Item where
  id : Nat
  type_id : Nat
  is_available : Bool
  deriving DecidableEq, Repr

/-- A `mnkSession` row, with the fields the route handlers read and write. -/
structure MnkSession where
  id : Nat
  user_id : Nat
  item_id : Nat
  status : RentStatus
  reservation_ts : Nat
  start_ts : Option Nat
  end_ts : Option Nat
  actual_return_ts : Option Nat
  admin_open_id : Option Nat
  admin_close_id : Option Nat
  deriving DecidableEq, Repr

/-- A `Strike` row as the strike route creates it. -/
structure Strike where
  user_id : Nat
  admin_id : Nat
  reason : String
  session_id : Nat
  deriving DecidableEq, Repr

/-- The payload `StrikePost` built in `accept_end_mnk_session`. -/
structure StrikePost where
  user_id : Nat
  admin_id : Nat
  reason : String
  session_id : Nat
  deriving DecidableEq, Repr

/-- The database state the session routes touch: item rows, session rows,
strike rows, and the id the store will give the next created session. -/
structure Store where
  items : List Item
  sessions : List MnkSession
  strikes : List Strike
  next_session_id : Nat
  deriving DecidableEq, Repr

/-- The exceptions raised by the session routes: `NoneAvailable`,
`ObjectNotFound`, `InactiveSession` from `mnk_backend.exceptions`, plus
`ValidationError` for a pydantic `model_validate` failure (not a typed
business exception of the backend). -/
inductive ApiError
  | NoneAvailable
  | ObjectNotFound
  | InactiveSession
  | ValidationError
  deriving DecidableEq, Repr

/-- `mnkSession.get(id=..., session=db.session)`: the session row with the
given id, if any. -/
def mnkSession_get (l : List MnkSession) (i : Nat) : Option MnkSession :=
  l.find? fun x => x.id == i

/-- `mnkSession.update(session=..., id=..., **fields)`: apply the field
updates `f` to the row with the given id. -/
def mnkSession_update (l : List MnkSession) (i : Nat) (f : MnkSession → MnkSession) :
    List MnkSession :=
  l.map fun x => if x.id == i then f x else x

/-- Look up an item row by id (observation used to state item properties). -/
def Item_get (l : List Item) (i : Nat) : Option Item :=
  l.find? fun x => x.id == i

/-- `Item.update(session=..., id=..., is_available=b)`. -/
def Item_update_available (l : List Item) (i : Nat) (b : Bool) : List Item :=
  l.map fun x => if x.id == i then { x with is_available := b } else x

/-- Modelled from the spec: `create_strike` lives in
`mnk_backend/routes/strike.py`, which is not among the sources here.  Per the
spec (§4.4 Strike Issuer), it is the pure creation of one `Strike` record
from the posted fields, with no further side effects. -/
def create_strike (info : StrikePost) (strikes : List Strike) : List Strike :=
  strikes ++ [{ user_id := info.user_id, admin_id := info.admin_id,
                reason := info.reason, session_id := info.session_id }]

/-- `check_session_expiration(session_id)`, the body that runs after the
10-minute sleep: if the session exists and is still RESERVED, set it to
CANCELED and mark its item available again; otherwise do nothing. -/
def check_session_expiration (session_id : Nat) (s : Store) : Store :=
  match mnkSession_get s.sessions session_id with
  | none => s
  | some ses =>
    if ses.status = RentStatus.RESERVED then
      { s with
        sessions := mnkSession_update s.sessions session_id
          (fun x => { x with status := RentStatus.CANCELED }),
        items := Item_update_available s.items ses.item_id true }
    else s

/-- `create_mnk_session(item_type_id)`: query the available items of the
type; raise `NoneAvailable` if there are none; else create a RESERVED
session on the first available item and mark that item unavailable.
Returns the result of the route together with the post-state of the store. -/
def create_mnk_session (item_type_id user_id now : Nat) (s : Store) :
    Except ApiError MnkSession × Store :=
  match s.items.filter (fun i => i.type_id == item_type_id && i.is_available) with
  | [] => (.error .NoneAvailable, s)
  | it :: _ =>
    let session : MnkSession :=
      { id := s.next_session_id, user_id := user_id, item_id := it.id,
        status := RentStatus.RESERVED, reservation_ts := now,
        start_ts := none, end_ts := none, actual_return_ts := none,
        admin_open_id := none, admin_close_id := none }
    (.ok session,
      { s with
        sessions := s.sessions ++ [session],
        items := Item_update_available s.items it.id false,
        next_session_id := s.next_session_id + 1 })

/-- `start_mnk_session(session_id)`: raise `ObjectNotFound` if the session
does not exist; otherwise set status ACTIVE, `start_ts = now`,
`admin_open_id` — with no check of the current status. -/
def start_mnk_session (session_id admin_id now : Nat) (s : Store) :
    Except ApiError MnkSession × Store :=
  match mnkSession_get s.sessions session_id with
  | none => (.error .ObjectNotFound, s)
  | some ses =>
    let f : MnkSession → MnkSession := fun x =>
      { x with status := RentStatus.ACTIVE, start_ts := some now,
               admin_open_id := some admin_id }
    (.ok (f ses), { s with sessions := mnkSession_update s.sessions session_id f })

/-- `accept_end_mnk_session(session_id, with_strike, strike_reason)`:
raise `ObjectNotFound` if missing, `InactiveSession` if the status is not
ACTIVE; otherwise set status RETURNED, keep `end_ts` if already set else set
it to `now`, set `actual_return_ts = now`, record `admin_close_id`, and, when
`with_strike` is set, create one strike for the user of the session. -/
def accept_end_mnk_session (session_id : Nat) (with_strike : Bool)
    (strike_reason : String) (admin_id now : Nat) (s : Store) :
    Except ApiError MnkSession × Store :=
  match mnkSession_get s.sessions session_id with
  | none => (.error .ObjectNotFound, s)
  | some rent_session =>
    if rent_session.status ≠ RentStatus.ACTIVE then (.error .InactiveSession, s)
    else
      let f : MnkSession → MnkSession := fun x =>
        { x with status := RentStatus.RETURNED,
                 end_ts := match rent_session.end_ts with
                           | none => some now
                           | some t => some t,
                 actual_return_ts := some now,
                 admin_close_id := some admin_id }
      let ended_session := f rent_session
      let s1 : Store := { s with sessions := mnkSession_update s.sessions session_id f }
      let strike_info : StrikePost :=
        { user_id := ended_session.user_id, admin_id := admin_id,
          reason := strike_reason, session_id := rent_session.id }
      let s2 : Store :=
        if with_strike then { s1 with strikes := create_strike strike_info s1.strikes }
        else s1
      (.ok ended_session, s2)

/-- `mnkSessionGet.model_validate(session)` applied to the possibly-missing
result of `mnkSession.get`: validating `None` raises a pydantic validation
error, not a backend exception. -/
def mnkSessionGet_model_validate : Option MnkSession → Except ApiError MnkSession
  | none => .error .ValidationError
  | some x => .ok x

/-- `get_mnk_session(session_id)`: fetch and validate, with no existence
check before `model_validate`. -/
def get_mnk_session (session_id : Nat) (s : Store) : Except ApiError MnkSession :=
  mnkSessionGet_model_validate (mnkSession_get s.sessions session_id)

/-- The `to_show` status list built from the six query flags, in the order
the handler appends them. -/
def status_filter_list (is_reserved is_canceled is_dismissed is_overdue
    is_returned is_active : Bool) : List RentStatus :=
  (if is_reserved then [RentStatus.RESERVED] else []) ++
  (if is_canceled then [RentStatus.CANCELED] else []) ++
  (if is_dismissed then [RentStatus.DISMISSED] else []) ++
  (if is_overdue then [RentStatus.OVERDUE] else []) ++
  (if is_returned then [RentStatus.RETURNED] else []) ++
  (if is_active then [RentStatus.ACTIVE] else [])

/-- `get_mnk_sessions(...)`: the sessions whose status is in `to_show`. -/
def get_mnk_sessions (is_reserved is_canceled is_dismissed is_overdue
    is_returned is_active : Bool) (s : Store) : List MnkSession :=
  s.sessions.filter fun x =>
    (status_filter_list is_reserved is_canceled is_dismissed is_overdue
      is_returned is_active).contains x.status

/-- `get_user_sessions(user_id)`: the sessions belonging to the user. -/
def get_user_sessions (user_id : Nat) (s : Store) : List MnkSession :=
  s.sessions.filter fun x => x.user_id == user_id

/-! Concrete stores used to exercise the operations. -/

/-- A session with id 1 for user 1 holding item 7, in the given status. -/
def sampleSession (st : RentStatus) : MnkSession :=
  { id := 1, user_id := 1, item_id := 7, status := st, reservation_ts := 0,
    start_ts := none, end_ts := none, actual_return_ts := none,
    admin_open_id := none, admin_close_id := none }

/-- A store holding item 7 (unavailable) and the sample session in the
given status. -/
def sampleStore (st : RentStatus) : Store :=
  { items := [{ id := 7, type_id := 1, is_available := false }],
    sessions := [sampleSession st],
    strikes := [], next_session_id := 2 }

/-- A store with a single available item 7 of type 1 and no sessions. -/
def storeOneAvail : Store :=
  { items := [{ id := 7, type_id := 1, is_available := true }],
    sessions := [], strikes := [], next_session_id := 1 }

/-! Helper lemmas about the store primitives. -/

/-- Updating the row with id `i` changes what `mnkSession_get` sees at `i`
by exactly `f`, provided `f` does not change the id. -/
theorem mnkSession_get_update_self (l : List MnkSession) (i : Nat)
    (f : MnkSession → MnkSession) (hf : ∀ x, (f x).id = x.id) :
    mnkSession_get (mnkSession_update l i f) i = (mnkSession_get l i).map f := by
  induction l with
  | nil => rfl
  | cons x xs ih =>
    by_cases h : x.id = i
    · simp [mnkSession_get, mnkSession_update, List.find?_cons, h, hf]
    · have hb : (x.id == i) = false := beq_eq_false_iff_ne.mpr h
      simp [mnkSession_get, mnkSession_update, List.find?_cons, h, hb] at ih ⊢
      exact ih

/-- Updating the availability flag of item `i` changes what `Item_get` sees
at `i` by exactly that flag update. -/
theorem Item_get_update_self (l : List Item) (i : Nat) (b : Bool) :
    Item_get (Item_update_available l i b) i =
      (Item_get l i).map (fun x => { x with is_available := b }) := by
  induction l with
  | nil => rfl
  | cons x xs ih =>
    by_cases h : x.id = i
    · simp [Item_get, Item_update_available, List.find?_cons, h]
    · have hb : (x.id == i) = false := beq_eq_false_iff_ne.mpr h
      simp [Item_get, Item_update_available, List.find?_cons, h, hb] at ih ⊢
      exact ih

/-- After a Start that found the session, the stored row is the fetched row
with status ACTIVE, `start_ts` and `admin_open_id` set. -/
theorem start_mnk_session_get_after (session_id admin_id now : Nat) (s : Store)
    (ses : MnkSession) (hget : mnkSession_get s.sessions session_id = some ses) :
    mnkSession_get (start_mnk_session session_id admin_id now s).2.sessions session_id =
      some { ses with
             status := RentStatus.ACTIVE, start_ts := some now,
             admin_open_id := some admin_id } := by
  simp only [start_mnk_session, hget]
  rw [mnkSession_get_update_self s.sessions session_id
      (fun x => { x with
                  status := RentStatus.ACTIVE, start_ts := some now,
                  admin_open_id := some admin_id })
      (fun x => rfl), hget]
  rfl

/-- After the expiry check fires on a still-RESERVED session, the stored row
is the fetched row with status CANCELED. -/
theorem check_session_expiration_get_after (session_id : Nat) (s : Store)
    (ses : MnkSession) (hget : mnkSession_get s.sessions session_id = some ses)
    (hres : ses.status = RentStatus.RESERVED) :
    mnkSession_get (check_session_expiration session_id s).sessions session_id =
      some { ses with status := RentStatus.CANCELED } := by
  simp only [check_session_expiration, hget, hres, if_pos]
  rw [mnkSession_get_update_self s.sessions session_id
      (fun x => { x with status := RentStatus.CANCELED }) (fun x => rfl), hget]
  rfl

/-- The six flag cases of `status_filter_list`, read as a predicate on the
status: membership in `to_show` is exactly the disjunction of the selected
statuses. -/
theorem status_filter_list_contains (r c d o ret a : Bool) (st : RentStatus) :
    ((status_filter_list r c d o ret a).contains st = true) ↔
      ((r = true ∧ st = RentStatus.RESERVED) ∨
       (c = true ∧ st = RentStatus.CANCELED) ∨
       (d = true ∧ st = RentStatus.DISMISSED) ∨
       (o = true ∧ st = RentStatus.OVERDUE) ∨
       (ret = true ∧ st = RentStatus.RETURNED) ∨
       (a = true ∧ st = RentStatus.ACTIVE)) := by
  cases r <;> cases c <;> cases d <;> cases o <;> cases ret <;> cases a <;> cases st <;> decide

/-- Claim C5: for every item type with zero available items (no item of that
type with `is_available = true`), Create fails with the no-available-item
error and the store is returned unchanged: no session created, no item
mutated. -/
theorem create_mnk_session_none_available (item_type_id user_id now : Nat) (s : Store)
    (h : ∀ i ∈ s.items, i.type_id = item_type_id → i.is_available = false) :
    create_mnk_session item_type_id user_id now s = (.error .NoneAvailable, s) := by
  have hnil : s.items.filter (fun i => i.type_id == item_type_id && i.is_available) = [] := by
    rw [List.filter_eq_nil_iff]
    intro i hi
    by_cases ht : i.type_id = item_type_id
    · simp [ht, h i hi ht]
    · simp [ht]
  unfold create_mnk_session
  rw [hnil]

/-- Witness for C5: in a store whose only item of type 1 is unavailable,
Create fails with the no-available-item error and leaves the store as it
was. -/
theorem create_mnk_session_none_available_w :
    create_mnk_session 1 1 0 (sampleStore RentStatus.RESERVED) =
      (.error .NoneAvailable, sampleStore RentStatus.RESERVED) :=
  create_mnk_session_none_available 1 1 0 (sampleStore RentStatus.RESERVED) (by decide)

/-- Claim C9: the list-by-status query with all six flags false returns the
empty list, and in general it returns exactly the stored sessions whose
status is among the selected statuses. -/
theorem get_mnk_sessions_filter (r c d o ret a : Bool) (s : Store) :
    get_mnk_sessions false false false false false false s = [] ∧
    ∀ x, x ∈ get_mnk_sessions r c d o ret a s ↔
      (x ∈ s.sessions ∧
        ((r = true ∧ x.status = RentStatus.RESERVED) ∨
         (c = true ∧ x.status = RentStatus.CANCELED) ∨
         (d = true ∧ x.status = RentStatus.DISMISSED) ∨
         (o = true ∧ x.status = RentStatus.OVERDUE) ∨
         (ret = true ∧ x.status = RentStatus.RETURNED) ∨
         (a = true ∧ x.status = RentStatus.ACTIVE))) := by
  constructor
  · simp [get_mnk_sessions, status_filter_list]
  · intro x
    rw [get_mnk_sessions, List.mem_filter, status_filter_list_contains]

/-- Witness for C9: on a concrete store with one ACTIVE session, the query
with no flags set returns the empty list. -/
theorem get_mnk_sessions_filter_w :
    get_mnk_sessions false false false false false false (sampleStore RentStatus.ACTIVE) = [] :=
  (get_mnk_sessions_filter false false false false false false
    (sampleStore RentStatus.ACTIVE)).1

/-- Claim C10: for a session id with no stored session, the get-by-id route
does not fail with the typed not-found error: it calls `model_validate` on
the missing value and fails with a validation error instead. -/
theorem get_mnk_session_missing_not_object_not_found (session_id : Nat) (s : Store)
    (h : mnkSession_get s.sessions session_id = none) :
    get_mnk_session session_id s = .error .ValidationError ∧
    get_mnk_session session_id s ≠ .error .ObjectNotFound := by
  constructor
  · simp [get_mnk_session, h, mnkSessionGet_model_validate]
  · simp [get_mnk_session, h, mnkSessionGet_model_validate]

/-- Witness for C10: fetching session 99 from a store that only holds
session 1 fails with the validation error, not the typed not-found error. -/
theorem get_mnk_session_missing_not_object_not_found_w :
    get_mnk_session 99 (sampleStore RentStatus.ACTIVE) = .error .ValidationError ∧
    get_mnk_session 99 (sampleStore RentStatus.ACTIVE) ≠ .error .ObjectNotFound :=
  get_mnk_session_missing_not_object_not_found 99 (sampleStore RentStatus.ACTIVE) (by decide)

/-- Counterexample to C2: Start on a session whose status is CANCELED (a
terminal status) does not fail with an invalid-transition error — it
succeeds and moves the session to ACTIVE, changing it. -/
theorem start_on_canceled_succeeds_ce :
    (start_mnk_session 1 9 5 (sampleStore RentStatus.CANCELED)).1 =
      .ok { sampleSession RentStatus.ACTIVE with
            start_ts := some 5, admin_open_id := some 9 } ∧
    mnkSession_get (start_mnk_session 1 9 5 (sampleStore RentStatus.CANCELED)).2.sessions 1 =
      some { sampleSession RentStatus.ACTIVE with
             start_ts := some 5, admin_open_id := some 9 } :=
  ⟨rfl, rfl⟩

/-- Claim C2 (amended): the code enforces no transition edges.  Start checks
only that the session exists: from every current status — RESERVED or not,
terminal or not — it succeeds, setting status ACTIVE, `start_ts` and
`admin_open_id`; no invalid-transition error exists in the code. -/
theorem start_mnk_session_no_status_check (session_id admin_id now : Nat) (s : Store)
    (ses : MnkSession) (hget : mnkSession_get s.sessions session_id = some ses) :
    (start_mnk_session session_id admin_id now s).1 =
      .ok { ses with
            status := RentStatus.ACTIVE, start_ts := some now,
            admin_open_id := some admin_id } ∧
    mnkSession_get (start_mnk_session session_id admin_id now s).2.sessions session_id =
      some { ses with
             status := RentStatus.ACTIVE, start_ts := some now,
             admin_open_id := some admin_id } := by
  constructor
  · simp [start_mnk_session, hget]
  · exact start_mnk_session_get_after session_id admin_id now s ses hget

/-- Witness for the amended C2: Start on a DISMISSED session succeeds and
makes it ACTIVE. -/
theorem start_mnk_session_no_status_check_w :
    (start_mnk_session 1 9 5 (sampleStore RentStatus.DISMISSED)).1 =
      .ok { sampleSession RentStatus.DISMISSED with
            status := RentStatus.ACTIVE, start_ts := some 5, admin_open_id := some 9 } ∧
    mnkSession_get (start_mnk_session 1 9 5 (sampleStore RentStatus.DISMISSED)).2.sessions 1 =
      some { sampleSession RentStatus.DISMISSED with
             status := RentStatus.ACTIVE, start_ts := some 5, admin_open_id := some 9 } :=
  start_mnk_session_no_status_check 1 9 5 (sampleStore RentStatus.DISMISSED)
    (sampleSession RentStatus.DISMISSED) rfl

/-- Counterexample to C3: Return on an existing session in status OVERDUE
does not succeed — it fails with `InactiveSession` and leaves the store
unchanged. -/
theorem return_on_overdue_rejected_ce :
    accept_end_mnk_session 1 false "" 9 5 (sampleStore RentStatus.OVERDUE) =
      (.error .InactiveSession, sampleStore RentStatus.OVERDUE) :=
  rfl

/-- Claim C3 (amended): Return succeeds exactly when the session exists and
its status is ACTIVE; for every other status — OVERDUE included — it fails
with `InactiveSession` and the store is unchanged. -/
theorem accept_end_mnk_session_active_only (session_id : Nat) (ws : Bool) (reason : String)
    (admin_id now : Nat) (s : Store) (ses : MnkSession)
    (hget : mnkSession_get s.sessions session_id = some ses) :
    (ses.status = RentStatus.ACTIVE →
      ∃ out, (accept_end_mnk_session session_id ws reason admin_id now s).1 = .ok out ∧
        out.status = RentStatus.RETURNED) ∧
    (ses.status ≠ RentStatus.ACTIVE →
      accept_end_mnk_session session_id ws reason admin_id now s =
        (.error .InactiveSession, s)) := by
  constructor
  · intro hact
    cases he : ses.end_ts with
    | none =>
      exact ⟨{ ses with
               status := RentStatus.RETURNED, end_ts := some now,
               actual_return_ts := some now, admin_close_id := some admin_id },
             by simp [accept_end_mnk_session, hget, hact, he], rfl⟩
    | some t =>
      exact ⟨{ ses with
               status := RentStatus.RETURNED, end_ts := some t,
               actual_return_ts := some now, admin_close_id := some admin_id },
             by simp [accept_end_mnk_session, hget, hact, he], rfl⟩
  · intro hneq
    simp [accept_end_mnk_session, hget, hneq]

/-- Witness for the amended C3: Return succeeds on an ACTIVE session and is
rejected with `InactiveSession` on an OVERDUE one. -/
theorem accept_end_mnk_session_active_only_w :
    (∃ out, (accept_end_mnk_session 1 false "" 9 5 (sampleStore RentStatus.ACTIVE)).1 =
        .ok out ∧ out.status = RentStatus.RETURNED) ∧
    accept_end_mnk_session 1 false "" 9 5 (sampleStore RentStatus.OVERDUE) =
      (.error .InactiveSession, sampleStore RentStatus.OVERDUE) :=
  ⟨(accept_end_mnk_session_active_only 1 false "" 9 5 (sampleStore RentStatus.ACTIVE)
      (sampleSession RentStatus.ACTIVE) rfl).1 rfl,
   (accept_end_mnk_session_active_only 1 false "" 9 5 (sampleStore RentStatus.OVERDUE)
      (sampleSession RentStatus.OVERDUE) rfl).2 (by decide)⟩

/-- Claim C6: on every successful Return, `end_ts` is preserved if it was
already set and set to now otherwise, while `actual_return_ts` is set to now
unconditionally. -/
theorem accept_end_mnk_session_timestamps (session_id : Nat) (ws : Bool) (reason : String)
    (admin_id now : Nat) (s : Store) (ses : MnkSession)
    (hget : mnkSession_get s.sessions session_id = some ses)
    (hact : ses.status = RentStatus.ACTIVE) :
    ∃ out, (accept_end_mnk_session session_id ws reason admin_id now s).1 = .ok out ∧
      out.end_ts = (if ses.end_ts = none then some now else ses.end_ts) ∧
      out.actual_return_ts = some now := by
  cases he : ses.end_ts with
  | none =>
    exact ⟨{ ses with
             status := RentStatus.RETURNED, end_ts := some now,
             actual_return_ts := some now, admin_close_id := some admin_id },
           by simp [accept_end_mnk_session, hget, hact, he], by simp [he], rfl⟩
  | some t =>
    exact ⟨{ ses with
             status := RentStatus.RETURNED, end_ts := some t,
             actual_return_ts := some now, admin_close_id := some admin_id },
           by simp [accept_end_mnk_session, hget, hact, he], by simp [he], rfl⟩

/-- Witness for C6: returning an ACTIVE session with unset `end_ts` at time
7 sets both `end_ts` and `actual_return_ts` to 7. -/
theorem accept_end_mnk_session_timestamps_w :
    ∃ out, (accept_end_mnk_session 1 false "" 9 7 (sampleStore RentStatus.ACTIVE)).1 =
        .ok out ∧
      out.end_ts = (if (sampleSession RentStatus.ACTIVE).end_ts = none then some 7
                    else (sampleSession RentStatus.ACTIVE).end_ts) ∧
      out.actual_return_ts = some 7 :=
  accept_end_mnk_session_timestamps 1 false "" 9 7 (sampleStore RentStatus.ACTIVE)
    (sampleSession RentStatus.ACTIVE) rfl rfl

/-- Claim C7: when the expiry check fires for a session still RESERVED, the
session becomes CANCELED and the availability flag of its item is set back to
true; when the session has left RESERVED, or does not exist, the check
changes nothing — a no-op, not an error. -/
theorem check_session_expiration_behavior (session_id : Nat) (s : Store) :
    (∀ ses, mnkSession_get s.sessions session_id = some ses →
      ses.status = RentStatus.RESERVED →
      mnkSession_get (check_session_expiration session_id s).sessions session_id =
        some { ses with status := RentStatus.CANCELED } ∧
      Item_get (check_session_expiration session_id s).items ses.item_id =
        (Item_get s.items ses.item_id).map (fun it => { it with is_available := true })) ∧
    (∀ ses, mnkSession_get s.sessions session_id = some ses →
      ses.status ≠ RentStatus.RESERVED → check_session_expiration session_id s = s) ∧
    (mnkSession_get s.sessions session_id = none →
      check_session_expiration session_id s = s) := by
  refine ⟨?_, ?_, ?_⟩
  · intro ses hget hres
    constructor
    · exact check_session_expiration_get_after session_id s ses hget hres
    · simp only [check_session_expiration, hget, hres, if_pos]
      rw [Item_get_update_self]
  · intro ses hget hres
    simp [check_session_expiration, hget, hres]
  · intro hget
    simp [check_session_expiration, hget]

/-- Witness for C7: the expiry check on the RESERVED sample session cancels
it and flips item 7 back to available; on an ACTIVE session it is the
identity. -/
theorem check_session_expiration_behavior_w :
    (mnkSession_get (check_session_expiration 1 (sampleStore RentStatus.RESERVED)).sessions 1 =
      some { sampleSession RentStatus.RESERVED with status := RentStatus.CANCELED } ∧
     Item_get (check_session_expiration 1 (sampleStore RentStatus.RESERVED)).items 7 =
      (Item_get (sampleStore RentStatus.RESERVED).items 7).map
        (fun it => { it with is_available := true })) ∧
    check_session_expiration 1 (sampleStore RentStatus.ACTIVE) = sampleStore RentStatus.ACTIVE :=
  ⟨(check_session_expiration_behavior 1 (sampleStore RentStatus.RESERVED)).1
      (sampleSession RentStatus.RESERVED) rfl rfl,
   (check_session_expiration_behavior 1 (sampleStore RentStatus.ACTIVE)).2.1
      (sampleSession RentStatus.ACTIVE) rfl (by decide)⟩

/-- Claim C8: on a successful Return with `with_strike` set, exactly one
strike is appended, attributed to the user of the session and the closing admin
and referencing the session, and the same call has already moved the session
to RETURNED; with `with_strike` unset no strike is created. -/
theorem accept_end_mnk_session_strike (session_id : Nat) (reason : String)
    (admin_id now : Nat) (s : Store) (ses : MnkSession)
    (hget : mnkSession_get s.sessions session_id = some ses)
    (hact : ses.status = RentStatus.ACTIVE) :
    (accept_end_mnk_session session_id true reason admin_id now s).2.strikes =
      s.strikes ++ [{ user_id := ses.user_id, admin_id := admin_id,
                      reason := reason, session_id := ses.id }] ∧
    (accept_end_mnk_session session_id false reason admin_id now s).2.strikes = s.strikes ∧
    (mnkSession_get
        (accept_end_mnk_session session_id true reason admin_id now s).2.sessions
        session_id).map MnkSession.status = some RentStatus.RETURNED := by
  refine ⟨?_, ?_, ?_⟩
  · simp [accept_end_mnk_session, create_strike, hget, hact]
  · simp [accept_end_mnk_session, hget, hact]
  · simp only [accept_end_mnk_session, hget, hact]
    simp only [ne_eq, not_true_eq_false, if_false, reduceIte]
    rw [mnkSession_get_update_self]
    · rw [hget]; rfl
    · intro x; rfl

/-- Witness for C8: returning the ACTIVE sample session with a strike
appends exactly one strike for user 1 referencing session 1, and without the
flag appends none. -/
theorem accept_end_mnk_session_strike_w :
    (accept_end_mnk_session 1 true "damaged" 9 7 (sampleStore RentStatus.ACTIVE)).2.strikes =
      (sampleStore RentStatus.ACTIVE).strikes ++
        [{ user_id := 1, admin_id := 9, reason := "damaged", session_id := 1 }] ∧
    (accept_end_mnk_session 1 false "damaged" 9 7
        (sampleStore RentStatus.ACTIVE)).2.strikes = (sampleStore RentStatus.ACTIVE).strikes ∧
    (mnkSession_get (accept_end_mnk_session 1 true "damaged" 9 7
        (sampleStore RentStatus.ACTIVE)).2.sessions 1).map MnkSession.status =
      some RentStatus.RETURNED :=
  accept_end_mnk_session_strike 1 "damaged" 9 7 (sampleStore RentStatus.ACTIVE)
    (sampleSession RentStatus.ACTIVE) rfl rfl

/-- Counterexample to C4: interleave the two operations on a RESERVED
session with the expiry check first.  Start then still succeeds — it
re-activates the already-canceled session instead of observing an
invalid-transition failure — while the item stays released: both a start and
a release have taken effect. -/
theorem expire_then_start_double_effect_ce :
    (start_mnk_session 1 9 5 (check_session_expiration 1 (sampleStore RentStatus.RESERVED))).1 =
      .ok { sampleSession RentStatus.ACTIVE with
            start_ts := some 5, admin_open_id := some 9 } ∧
    (Item_get (start_mnk_session 1 9 5
        (check_session_expiration 1 (sampleStore RentStatus.RESERVED))).2.items 7).map
      Item.is_available = some true :=
  ⟨rfl, rfl⟩

/-- Claim C4 (amended): with each operation atomic, the outcome depends on
the interleaving order.  If Start runs first, the expiry check is a no-op,
as claimed.  But if the expiry check runs first, Start does not observe a
clean failure: it succeeds and sets the canceled session ACTIVE while the
item remains released, so both mutations take effect. -/
theorem start_expire_interleavings (session_id admin_id now : Nat) (s : Store)
    (ses : MnkSession) (hget : mnkSession_get s.sessions session_id = some ses)
    (hres : ses.status = RentStatus.RESERVED) :
    check_session_expiration session_id (start_mnk_session session_id admin_id now s).2 =
      (start_mnk_session session_id admin_id now s).2 ∧
    (start_mnk_session session_id admin_id now (check_session_expiration session_id s)).1 =
      .ok { ses with
            status := RentStatus.ACTIVE, start_ts := some now,
            admin_open_id := some admin_id } := by
  constructor
  · have h2 := start_mnk_session_get_after session_id admin_id now s ses hget
    simp [check_session_expiration, h2]
  · have h3 := check_session_expiration_get_after session_id s ses hget hres
    simp [start_mnk_session, h3]

/-- Witness for the amended C4: on the concrete RESERVED store, the
Start-first order leaves the expiry check a no-op, and the expire-first
order still lets Start succeed. -/
theorem start_expire_interleavings_w :
    check_session_expiration 1 (start_mnk_session 1 9 5 (sampleStore RentStatus.RESERVED)).2 =
      (start_mnk_session 1 9 5 (sampleStore RentStatus.RESERVED)).2 ∧
    (start_mnk_session 1 9 5 (check_session_expiration 1 (sampleStore RentStatus.RESERVED))).1 =
      .ok { sampleSession RentStatus.RESERVED with
            status := RentStatus.ACTIVE, start_ts := some 5, admin_open_id := some 9 } :=
  start_expire_interleavings 1 9 5 (sampleStore RentStatus.RESERVED)
    (sampleSession RentStatus.RESERVED) rfl rfl

/-- Counterexample to C1: create a session on the one available item 7,
start it, then return it.  The session is terminal (RETURNED) and no
non-terminal session holds item 7, yet the `is_available` flag of item 7 is still
false — the claimed iff-invariant does not hold, and Return did not make the
item available again. -/
theorem returned_session_item_stays_unavailable_ce :
    (Item_get (accept_end_mnk_session 1 false "" 9 7
        (start_mnk_session 1 9 5 (create_mnk_session 1 1 0 storeOneAvail).2).2).2.items 7).map
      Item.is_available = some false ∧
    ((accept_end_mnk_session 1 false "" 9 7
        (start_mnk_session 1 9 5 (create_mnk_session 1 1 0 storeOneAvail).2).2).2.sessions.all
      (fun x => !(x.item_id == 7 &&
        (x.status == RentStatus.RESERVED || x.status == RentStatus.ACTIVE ||
         x.status == RentStatus.OVERDUE)))) = true :=
  ⟨rfl, rfl⟩

/-- Claim C1 (amended): Create marks the allocated item unavailable and the
expiry check releases it on cancellation, but Return never mutates any item
row — on every call, successful or not, the item table is unchanged — so
once a session is RETURNED its item stays unavailable and the claimed
iff-invariant fails. -/
theorem accept_end_mnk_session_items_unchanged (session_id : Nat) (ws : Bool)
    (reason : String) (admin_id now : Nat) (s : Store) :
    (accept_end_mnk_session session_id ws reason admin_id now s).2.items = s.items := by
  cases hget : mnkSession_get s.sessions session_id with
  | none => simp [accept_end_mnk_session, hget]
  | some rs =>
    by_cases hs : rs.status = RentStatus.ACTIVE
    · cases ws <;> simp [accept_end_mnk_session, hget, hs]
    · simp [accept_end_mnk_session, hget, hs]

/-- Witness for the amended C1: returning the ACTIVE sample session leaves
the item table exactly as it was (item 7 stays unavailable). -/
theorem accept_end_mnk_session_items_unchanged_w :
    (accept_end_mnk_session 1 false "" 9 7 (sampleStore RentStatus.ACTIVE)).2.items =
      (sampleStore RentStatus.ACTIVE).items :=
  accept_end_mnk_session_items_unchanged 1 false "" 9 7 (sampleStore RentStatus.ACTIVE)

end Mnk
